import Mathlib

/-!
Verification of the multi-source periodical search pipeline (`src/index.ts`).

The program is shallowly embedded: every fetcher becomes a pure, total
function of the target name and of the (already received / already
CSS-extracted) responses of its HTTP requests.  A request that threw in the
source is modelled as an `Except.error` input; the `try`/`catch` blocks of
the source become the corresponding `match` arms.  JavaScript strings are
modelled by `String` / `List Char`; the relevant `RegExp`, `trim`,
`toLowerCase`, `includes` and `new URL` behaviours are modelled explicitly
below, restricted to their ASCII semantics (the code only matches ASCII
classes `\w`, `\s` and `\d`).
-/

/-- Model of the JavaScript `\w` character class (ASCII word characters:
letters, digits and underscore), stated on `Char.toNat` so that it lines up
with `Char.toLower`. -/
def isWordChar (c : Char) : Bool :=
  decide ((65 ≤ c.toNat ∧ c.toNat ≤ 90) ∨ (97 ≤ c.toNat ∧ c.toNat ≤ 122) ∨
    (48 ≤ c.toNat ∧ c.toNat ≤ 57) ∨ c.toNat = 95)

/-- Model of the JavaScript `\s` character class restricted to ASCII
(space, tab, line feed, vertical tab, form feed, carriage return). -/
def isSpaceChar (c : Char) : Bool :=
  decide (c.toNat = 32 ∨ c.toNat = 9 ∨ c.toNat = 10 ∨ c.toNat = 11 ∨
    c.toNat = 12 ∨ c.toNat = 13)

/-- Boolean test that `p` is an initial segment of `l`. -/
def startsWithL : List Char → List Char → Bool
  | [], _ => true
  | _ :: _, [] => false
  | p :: ps, c :: cs => p == c && startsWithL ps cs

/-- Model of JavaScript `String.prototype.includes`: does `sub` occur
contiguously inside `l`? -/
def hasSubstring : List Char → List Char → Bool
  | [], sub => startsWithL sub []
  | c :: t, sub => startsWithL sub (c :: t) || hasSubstring t sub

/-- The normalisation used by `verifyMagazineIdentity` in the source:
`s.toLowerCase().replace(/[^\w\s]/g, '')` — lowercase every character, then
delete every character that is neither a word character nor whitespace. -/
def cleanStr (s : String) : List Char :=
  (s.data.map Char.toLower).filter (fun c => isWordChar c || isSpaceChar c)

/-- Model of JavaScript `String.prototype.trim` (strip leading and trailing
whitespace). -/
def jsTrim (s : String) : String :=
  String.mk (((s.data.dropWhile Char.isWhitespace).reverse.dropWhile
    Char.isWhitespace).reverse)

/-- Model of JavaScript `opt || dflt` on an optional string field: both a
missing field and an empty string are falsy and fall back to the default. -/
def jsOr (o : Option String) (dflt : String) : String :=
  match o with
  | some s => if s = "" then dflt else s
  | none => dflt

/-- Model of JavaScript `s.slice(0, n)`. -/
def jsSlice (n : Nat) (s : String) : String :=
  String.mk (s.data.take n)

/-- Model of `parseInt` on the four-character match of a year pattern. -/
def fourDigitVal : List Char → Nat
  | c0 :: c1 :: c2 :: c3 :: _ =>
    (c0.toNat - 48) * 1000 + (c1.toNat - 48) * 100 + (c2.toNat - 48) * 10 +
      (c3.toNat - 48)
  | _ => 0

/-- Does the regular expression `20\d{2}\b` match at the head of `l`?  The
trailing word boundary requires the character after the four digits, if
any, to be a non-word character. -/
def matches20 : List Char → Bool
  | c0 :: c1 :: c2 :: c3 :: rest =>
    c0 == '2' && c1 == '0' && c2.isDigit && c3.isDigit &&
      (match rest with
       | [] => true
       | c4 :: _ => !isWordChar c4)
  | _ => false

/-- Does the regular expression `\d{4}\b` match at the head of `l`? -/
def matches4 : List Char → Bool
  | c0 :: c1 :: c2 :: c3 :: rest =>
    c0.isDigit && c1.isDigit && c2.isDigit && c3.isDigit &&
      (match rest with
       | [] => true
       | c4 :: _ => !isWordChar c4)
  | _ => false

/-- Scan the text left to right for the first position at which `ok`
matches and a `\b` word boundary holds before the match (the previous
character, if any, is a non-word character); return `parseInt` of the
match.  This models `text.match(pattern)` for the two year patterns of the
source, which both start and end with `\b` and match four digits. -/
def firstMatchAux (ok : List Char → Bool) : Option Char → List Char → Option Nat
  | _, [] => none
  | prev, c :: t =>
    if (match prev with
        | none => true
        | some p => !isWordChar p) && ok (c :: t) then
      some (fourDigitVal (c :: t))
    else
      firstMatchAux ok (some c) t

/-- First boundary-respecting match of `ok` in a whole text. -/
def firstYearMatch (ok : List Char → Bool) (cs : List Char) : Option Nat :=
  firstMatchAux ok none cs

/-- The source's `isYearInRange`: the year (a decimal numeral string in the
source, represented here by the number it denotes, since the source only
ever applies it to `String(parseInt(match))`) lies within [2000, 2025]. -/
def isYearInRange (y : Nat) : Bool :=
  decide (2000 ≤ y ∧ y ≤ 2025)

/-- The pattern loop of the source's `extractYear`: for each pattern in
order, look at the first match of that pattern; if its value is in range
return it, otherwise fall through to the next pattern. -/
def yearFromPatterns : List (List Char → Bool) → List Char → String
  | [], _ => "Unknown"
  | p :: ps, cs =>
    match firstYearMatch p cs with
    | some y => if isYearInRange y then toString y else yearFromPatterns ps cs
    | none => yearFromPatterns ps cs

/-- The source's `extractYear`: try `/\b20\d{2}\b/` then `/\b\d{4}\b/`. -/
def extractYear (text : String) : String :=
  yearFromPatterns [matches20, matches4] text.data

/-- The source's `verifyMagazineIdentity`: reject an empty candidate title,
otherwise normalise both strings with `cleanStr` and accept on equality or
on the cleaned target occurring inside the cleaned candidate. -/
def verifyMagazineIdentity (magazineName title : String) : Bool :=
  if title = "" then false
  else
    let cleanTitle := cleanStr title
    let cleanTarget := cleanStr magazineName
    cleanTitle == cleanTarget || hasSubstring cleanTitle cleanTarget

/-- Is the string an absolute `http` / `https` URL (has an explicit
scheme)?  List-of-characters form. -/
def isAbsoluteUrlL (l : List Char) : Bool :=
  startsWithL "http://".data l || startsWithL "https://".data l

/-- Is the string an absolute `http` / `https` URL? -/
def isAbsoluteUrl (s : String) : Bool :=
  isAbsoluteUrlL s.data

/-- Everything up to and including the last `'/'` of the list, or `none`
when the list contains no slash. -/
def upToLastSlash : List Char → Option (List Char)
  | [] => none
  | c :: t =>
    match upToLastSlash t with
    | some r => some (c :: r)
    | none => if c == '/' then some [c] else none

/-- The `scheme://host` part of a URL (used to resolve root-relative
links). -/
def urlOriginL (b : List Char) : List Char :=
  if startsWithL "https://".data b then
    "https://".data ++ (b.drop 8).takeWhile (fun c => c ≠ '/')
  else if startsWithL "http://".data b then
    "http://".data ++ (b.drop 7).takeWhile (fun c => c ≠ '/')
  else
    b.takeWhile (fun c => c ≠ '/')

/-- The URL up to and including the last slash (the directory against which
a plain relative link is resolved). -/
def urlDirL (b : List Char) : List Char :=
  (upToLastSlash b).getD (b ++ ['/'])

/-- Model of `new URL(href, base).toString()` as used by the source: an
absolute link is kept, an empty link resolves to the base itself, a
scheme-relative link receives the base's scheme, a root-relative link is
attached to the base's origin and any other link to the base's directory.
Normalisation details of the WHATWG parser (dot segments, percent escapes)
are not modelled; no claim depends on them. -/
def resolveUrl (href base : String) : String :=
  if isAbsoluteUrlL href.data then href
  else if href = "" then base
  else if startsWithL "//".data href.data then
    String.mk ((if startsWithL "http://".data base.data then "http:".data
      else "https:".data) ++ href.data)
  else if startsWithL "/".data href.data then
    String.mk (urlOriginL base.data ++ href.data)
  else
    String.mk (urlDirL base.data ++ href.data)

/-- The common result record (`SearchResult` in the source). -/
structure SearchResult where
  source : String
  title : String
  year : String
  url : String
  description : String
deriving DecidableEq, Repr

/-- One doc of the archive.org advanced-search JSON response. -/
structure ArchiveDoc where
  identifier : String
  title : String
  year : Option String
  description : Option String

/-- The `response` object of the archive.org JSON response. -/
structure ArchiveOrgResponseBody where
  docs : Option (List ArchiveDoc)

/-- Shape of the archive.org advanced-search JSON response
(`ArchiveOrgResponse` in the source; both levels are optional there). -/
structure ArchiveOrgResponse where
  response : Option ArchiveOrgResponseBody

/-- The `volumeInfo` object of a Google Books item. -/
structure VolumeInfo where
  title : Option String
  publishedDate : Option String
  description : Option String
  previewLink : Option String

/-- One item of the Google Books JSON response. -/
structure GoogleBooksItem where
  volumeInfo : Option VolumeInfo

/-- Shape of the Google Books JSON response (`GoogleBooksResponse`). -/
structure GoogleBooksResponse where
  items : Option (List GoogleBooksItem)

/-- The inner `data` object of one Reddit post. -/
structure RedditPost where
  title : String
  created_utc : Nat
  permalink : String
  selftext : Option String

/-- One child of a Reddit listing. -/
structure RedditChild where
  data : RedditPost

/-- The `data` object of a Reddit listing. -/
structure RedditData where
  children : Option (List RedditChild)

/-- Shape of the Reddit search JSON response (`RedditResponse`). -/
structure RedditResponse where
  data : Option RedditData

/-- One container element matched by a site's `container` CSS selector,
with the texts and attribute the source reads off it: the trimmed-later
text of the `title` selector, the `href` attribute of the `link` selector
(absent when the selector matches nothing or the element has no `href`),
the text of the `description` selector and the full text of the container
(used by the digital-library fetcher for year extraction).  The cheerio
calls `$(element).find(sel).text()` / `.attr('href')` are modelled by
reading these fields. -/
structure ScrapedElem where
  titleText : String
  linkHref : Option String
  descriptionText : String
  fullText : String

/-- CSS selector table of one scraped site (the `selector` field of the
source's `DigitalLibrary` interface and of the inline search-engine
configs). -/
structure SelectorCfg where
  container : String
  title : String
  date : Option String
  description : Option String
  link : String

/-- Configuration record of one scraped site (the source's
`DigitalLibrary` interface; the two general-web engines have the same
shape). -/
structure DigitalLibrary where
  name : String
  url : String
  params : List (String × String)
  selector : SelectorCfg

/-- Model of `new Date(sec * 1000).getFullYear().toString()` for a
non-negative Unix timestamp, using the proleptic Gregorian calendar (the
source result additionally depends on the machine's local time zone, which
is not modelled; no claim depends on the exact value). -/
def civilYearFromDays (days : Nat) : Nat :=
  let z := days + 719468
  let era := z / 146097
  let doe := z % 146097
  let yoe := (doe - doe / 1460 + doe / 36524 - doe / 146097) / 365
  let y := yoe + era * 400
  let doy := doe - (365 * yoe + yoe / 4 - yoe / 100)
  let mp := (5 * doy + 2) / 153
  let m := if mp < 10 then mp + 3 else mp - 9
  if m ≤ 2 then y + 1 else y

/-- Year of a Unix timestamp in seconds. -/
def epochYear (sec : Nat) : Nat :=
  civilYearFromDays (sec / 86400)

/-- The source's `searchArchiveOrg`, as a function of the (possibly
failed) JSON response.  A thrown request (`Except.error`) is caught and
resolved to no results; otherwise every doc whose title passes identity
verification is normalised, with `year: item.year || 'Unknown'` and the
detail URL built from the identifier. -/
def searchArchiveOrg (name : String) (resp : Except String ArchiveOrgResponse) :
    List SearchResult :=
  match resp with
  | .error _ => []
  | .ok data =>
    match data.response with
    | none => []
    | some body =>
      match body.docs with
      | none => []
      | some docs =>
        docs.filterMap fun item =>
          if verifyMagazineIdentity name item.title then
            some { source := "archive.org"
                   title := item.title
                   year := jsOr item.year "Unknown"
                   url := "https://archive.org/details/" ++ item.identifier
                   description := jsOr item.description "" }
          else none

/-- The source's `searchGoogleBooks`: a failed request yields no results;
an item is normalised only when `volumeInfo?.title` is truthy, the year
extracted from `publishedDate` is not `"Unknown"` and the title passes
identity verification. -/
def searchGoogleBooks (name : String) (resp : Except String GoogleBooksResponse) :
    List SearchResult :=
  match resp with
  | .error _ => []
  | .ok data =>
    match data.items with
    | none => []
    | some items =>
      items.filterMap fun item =>
        match item.volumeInfo with
        | none => none
        | some volumeInfo =>
          match volumeInfo.title with
          | none => none
          | some t =>
            if t ≠ "" then
              let year := extractYear (jsOr volumeInfo.publishedDate "")
              if year ≠ "Unknown" ∧ verifyMagazineIdentity name t = true then
                some { source := "google_books"
                       title := t
                       year := year
                       url := jsOr volumeInfo.previewLink ""
                       description := jsOr volumeInfo.description "" }
              else none
            else none

/-- One step of the source-level trace of a multi-site fetcher loop: the
HTTP request of one unit (named by its subreddit / site / engine), or an
awaited `setTimeout` pacing delay in milliseconds. -/
inductive FetchEvent where
  | request : String → FetchEvent
  | delay : Nat → FetchEvent
deriving DecidableEq, Repr

/-- The fixed subreddit list of `searchRedditArchives`. -/
def subreddits : List String :=
  ["magazines", "archival", "vintageculture", "OldSchoolCool"]

/-- Normalisation of one subreddit's successful listing inside
`searchRedditArchives`: each verified post becomes a result whose year is
the post-creation year and whose description is the post body truncated to
200 characters. -/
def redditUnit (name sub : String) (data : RedditResponse) : List SearchResult :=
  match data.data with
  | none => []
  | some d =>
    match d.children with
    | none => []
    | some children =>
      children.filterMap fun post =>
        let postData := post.data
        if verifyMagazineIdentity name postData.title then
          some { source := "reddit/r/" ++ sub
                 title := postData.title
                 year := toString (epochYear postData.created_utc)
                 url := "https://reddit.com" ++ postData.permalink
                 description := jsSlice 200 (jsOr postData.selftext "") }
        else none

/-- The sequential `try`/`catch` `for` loop shared (up to the per-unit
normalisation, the unit naming and the delay length) by the source's
`searchRedditArchives`, `searchDigitalLibraries` and `searchGeneralWeb`,
returning the accumulated results together with the trace of request and
pacing-delay events.  The `await setTimeout(...)` of the source sits
inside the `try` block after the request, so a unit whose request throws
is caught without executing its delay. -/
def fetchLoop {U R : Type} (unitName : U → String)
    (unitResults : U → R → List SearchResult) (d : Nat) :
    List (U × Except String R) → List SearchResult × List FetchEvent
  | [] => ([], [])
  | (u, resp) :: rest =>
    let acc := fetchLoop unitName unitResults d rest
    match resp with
    | .error _ => (acc.1, FetchEvent.request (unitName u) :: acc.2)
    | .ok r =>
      (unitResults u r ++ acc.1,
        FetchEvent.request (unitName u) :: FetchEvent.delay d :: acc.2)

/-- The loop of `searchRedditArchives`: units are subreddit names, the
pacing delay is 2000 ms. -/
def redditLoop (name : String)
    (pairs : List (String × Except String RedditResponse)) :
    List SearchResult × List FetchEvent :=
  fetchLoop (fun s => s) (redditUnit name) 2000 pairs

/-- The source's `searchRedditArchives` (result part). -/
def searchRedditArchives (name : String)
    (resps : List (Except String RedditResponse)) : List SearchResult :=
  (redditLoop name (subreddits.zip resps)).1

/-- Request/delay trace of `searchRedditArchives`. -/
def searchRedditEvents (name : String)
    (resps : List (Except String RedditResponse)) : List FetchEvent :=
  (redditLoop name (subreddits.zip resps)).2

/-- The fixed library configuration list of `searchDigitalLibraries`. -/
def libraries : List DigitalLibrary :=
  [ { name := "HathiTrust"
      url := "https://babel.hathitrust.org/cgi/ls"
      params := [("q", "")]
      selector := { container := ".record", title := ".title",
                    date := some ".date", description := some ".description",
                    link := ".title a" } },
    { name := "Internet Archive"
      url := "https://archive.org/search.php"
      params := [("query", "")]
      selector := { container := ".item-ia", title := ".ttl",
                    date := some ".date", description := some ".C234",
                    link := ".ttl" } },
    { name := "Digital Public Library of America"
      url := "https://dp.la/search"
      params := [("q", ""), ("type", "text")]
      selector := { container := ".search-result", title := ".title",
                    date := none, description := some ".description",
                    link := ".title a" } },
    { name := "WorldCat"
      url := "https://www.worldcat.org/search"
      params := [("q", "")]
      selector := { container := ".result", title := ".title",
                    date := some ".date", description := some ".description",
                    link := ".title a" } } ]

/-- Normalisation of one library site's parsed page inside
`searchDigitalLibraries`: each container whose trimmed title is non-empty
and verified yields a result; the year is extracted from the container's
full text and the link is resolved against the site's base URL. -/
def dlUnit (name : String) (lib : DigitalLibrary) (elems : List ScrapedElem) :
    List SearchResult :=
  elems.filterMap fun el =>
    let title := jsTrim el.titleText
    if title ≠ "" ∧ verifyMagazineIdentity name title = true then
      some { source := lib.name
             title := title
             year := extractYear el.fullText
             url := resolveUrl (jsOr el.linkHref "") lib.url
             description := jsTrim el.descriptionText }
    else none

/-- The sequential `for` loop of `searchDigitalLibraries`, with its
2000 ms pacing delay inside the `try` block. -/
def libLoop (name : String)
    (pairs : List (DigitalLibrary × Except String (List ScrapedElem))) :
    List SearchResult × List FetchEvent :=
  fetchLoop (fun lib => lib.name) (dlUnit name) 2000 pairs

/-- The source's `searchDigitalLibraries` (result part). -/
def searchDigitalLibraries (name : String)
    (resps : List (Except String (List ScrapedElem))) : List SearchResult :=
  (libLoop name (libraries.zip resps)).1

/-- Request/delay trace of `searchDigitalLibraries`. -/
def searchDigitalLibraryEvents (name : String)
    (resps : List (Except String (List ScrapedElem))) : List FetchEvent :=
  (libLoop name (libraries.zip resps)).2

/-- The fixed search-engine configuration list of `searchGeneralWeb`. -/
def searchEngines : List DigitalLibrary :=
  [ { name := "Google"
      url := "https://www.google.com/search"
      params := [("q", ""), ("num", "100")]
      selector := { container := ".g", title := ".LC20lb",
                    date := none, description := some ".VwiC3b",
                    link := "a[href]" } },
    { name := "Bing"
      url := "https://www.bing.com/search"
      params := [("q", ""), ("count", "50")]
      selector := { container := ".b_algo", title := "h2",
                    date := none, description := some ".b_caption p",
                    link := "a[href]" } } ]

/-- Normalisation of one engine's parsed page inside `searchGeneralWeb`:
a container yields a result when its trimmed title is non-empty, its link
has a truthy `href` and the title is verified; the `href` is copied into
`url` as-is and the year is extracted from title and description. -/
def webUnit (name : String) (engine : DigitalLibrary)
    (elems : List ScrapedElem) : List SearchResult :=
  elems.filterMap fun el =>
    let title := jsTrim el.titleText
    let description := jsTrim el.descriptionText
    match el.linkHref with
    | none => none
    | some url =>
      if title ≠ "" ∧ url ≠ "" ∧ verifyMagazineIdentity name title = true then
        some { source := engine.name
               title := title
               year := extractYear (title ++ " " ++ description)
               url := url
               description := description }
      else none

/-- The sequential `for` loop of `searchGeneralWeb`, with its 3000 ms
pacing delay inside the `try` block. -/
def webLoop (name : String)
    (pairs : List (DigitalLibrary × Except String (List ScrapedElem))) :
    List SearchResult × List FetchEvent :=
  fetchLoop (fun engine => engine.name) (webUnit name) 3000 pairs

/-- The source's `searchGeneralWeb` (result part). -/
def searchGeneralWeb (name : String)
    (resps : List (Except String (List ScrapedElem))) : List SearchResult :=
  (webLoop name (searchEngines.zip resps)).1

/-- Request/delay trace of `searchGeneralWeb`. -/
def searchGeneralWebEvents (name : String)
    (resps : List (Except String (List ScrapedElem))) : List FetchEvent :=
  (webLoop name (searchEngines.zip resps)).2

/-- Recursion of the source's `deduplicateResults`: the `seen` set of
already-encountered `url` values, threaded through the filter. -/
def dedupGo (seen : List String) : List SearchResult → List SearchResult
  | [] => []
  | r :: rest =>
    if r.url ∈ seen then dedupGo seen rest
    else r :: dedupGo (r.url :: seen) rest

/-- The source's `deduplicateResults`: keep a result only the first time
its `url` is seen. -/
def deduplicateResults (results : List SearchResult) : List SearchResult :=
  dedupGo [] results

/-- The network responses of one full run: one response per request the
five fetchers may issue (a thrown request is an `Except.error`).  The three
multi-site fetchers receive one response per unit of their fixed site
lists, in list order. -/
structure World where
  archiveResp : Except String ArchiveOrgResponse
  googleResp : Except String GoogleBooksResponse
  redditResps : List (Except String RedditResponse)
  libraryResps : List (Except String (List ScrapedElem))
  webResps : List (Except String (List ScrapedElem))

/-- The source's `searchAll`: run the five fetchers (concurrently in the
source; their outputs are joined in the fixed order of the
`searchMethods` array), flatten, and deduplicate by URL. -/
def searchAll (name : String) (w : World) : List SearchResult :=
  deduplicateResults
    (searchArchiveOrg name w.archiveResp ++
      searchGoogleBooks name w.googleResp ++
      searchRedditArchives name w.redditResps ++
      searchDigitalLibraries name w.libraryResps ++
      searchGeneralWeb name w.webResps)

/-- All boundary-respecting matches of a year pattern in a text, in text
order (used only to state the specification's reading of `extractYear`,
which the code is compared against). -/
def allYearMatches (ok : List Char → Bool) : Option Char → List Char → List Nat
  | _, [] => []
  | prev, c :: t =>
    (if (match prev with
         | none => true
         | some p => !isWordChar p) && ok (c :: t) then
      [fourDigitVal (c :: t)]
    else []) ++ allYearMatches ok (some c) t

/-- Modelled from the spec: "try, in order, the tightest pattern first (a
4-digit literal beginning with 20) then a generic 4-digit literal; return
the first match whose integer value falls in [2000, 2025]; otherwise
return Unknown" — i.e. all matches of the first pattern are considered
before the second pattern's, and the first in-range one is returned. -/
def specExtractYear (text : String) : String :=
  match (allYearMatches matches20 none text.data ++
      allYearMatches matches4 none text.data).find? (fun y => isYearInRange y) with
  | some y => toString y
  | none => "Unknown"

/-- Parse a non-empty all-digit character list as a decimal number (used
only to state the claim-side year-range predicate on emitted records). -/
def parseNatL (l : List Char) : Option Nat :=
  if l ≠ [] ∧ l.all Char.isDigit then
    some (l.foldl (fun a c => a * 10 + (c.toNat - 48)) 0)
  else none

/-- The year invariant claimed by the spec for emitted records: the `year`
field is the sentinel `"Unknown"` or a numeral within [2000, 2025]. -/
def claimYearOk (s : String) : Bool :=
  s == "Unknown" ||
    (match parseNatL s.data with
     | some y => isYearInRange y
     | none => false)

/-- The pacing shape claimed by the spec for a fetcher trace: every
request is immediately followed by a pacing delay of `d` milliseconds. -/
def pacedEvents (d : Nat) : List FetchEvent → Bool
  | [] => true
  | FetchEvent.request _ :: FetchEvent.delay d' :: rest =>
    d' == d && pacedEvents d rest
  | _ => false

/-- The unit names of the requests of a trace, in trace order. -/
def requestsOf (evs : List FetchEvent) : List String :=
  evs.filterMap fun e =>
    match e with
    | FetchEvent.request s => some s
    | FetchEvent.delay _ => none

/-- Count of pacing delays in a trace. -/
def delayCount (evs : List FetchEvent) : Nat :=
  evs.countP fun e =>
    match e with
    | FetchEvent.delay _ => true
    | FetchEvent.request _ => false

/-- Boolean test that `suf` is a final segment of `l` (used to state the
"url ending in wm12" scenario). -/
def endsWithL (suf l : List Char) : Bool :=
  startsWithL suf.reverse l.reverse

lemma startsWithL_append_self (p t : List Char) :
    startsWithL p (p ++ t) = true := by
  induction p with
  | nil => rfl
  | cons c cs ih => simp [startsWithL, ih]

lemma startsWithL_iff (p l : List Char) :
    startsWithL p l = true ↔ ∃ t, l = p ++ t := by
  induction p generalizing l with
  | nil => simp [startsWithL]
  | cons c cs ih =>
    cases l with
    | nil => simp [startsWithL]
    | cons d ds =>
      simp only [startsWithL, Bool.and_eq_true, beq_iff_eq, List.cons_append]
      constructor
      · rintro ⟨rfl, h⟩
        obtain ⟨t, rfl⟩ := (ih ds).mp h
        exact ⟨t, rfl⟩
      · rintro ⟨t, h⟩
        injection h with h1 h2
        exact ⟨h1.symm, (ih ds).mpr ⟨t, h2⟩⟩

lemma startsWithL_nil (sub : List Char) :
    startsWithL sub [] = true ↔ sub = [] := by
  cases sub <;> simp [startsWithL]

lemma hasSubstring_nil_right (l : List Char) : hasSubstring l [] = true := by
  cases l <;> simp [hasSubstring, startsWithL]

lemma hasSubstring_iff (l sub : List Char) :
    hasSubstring l sub = true ↔ ∃ l₁ l₂, l = l₁ ++ sub ++ l₂ := by
  induction l with
  | nil =>
    simp only [hasSubstring, startsWithL_nil]
    constructor
    · rintro rfl; exact ⟨[], [], rfl⟩
    · rintro ⟨l₁, l₂, h⟩
      rcases List.append_eq_nil.mp h.symm with ⟨h1, h2⟩
      exact (List.append_eq_nil.mp h1).2
  | cons c t ih =>
    simp only [hasSubstring, Bool.or_eq_true, startsWithL_iff, ih]
    constructor
    · rintro (⟨s, hs⟩ | ⟨l₁, l₂, hl⟩)
      · exact ⟨[], s, by simpa using hs⟩
      · exact ⟨c :: l₁, l₂, by simp [hl]⟩
    · rintro ⟨l₁, l₂, hl⟩
      cases l₁ with
      | nil => exact Or.inl ⟨l₂, by simpa using hl⟩
      | cons x xs =>
        right
        injection hl with h1 h2
        exact ⟨xs, l₂, h2⟩

lemma toLower_of_not_word (c : Char) (h : isWordChar c = false) :
    Char.toLower c = c := by
  simp only [isWordChar, decide_eq_false_iff_not, not_or] at h
  have : ¬(c.toNat ≥ 65 ∧ c.toNat ≤ 90) := h.1
  simp [Char.toLower, this]

lemma cleanStr_eq_nil (s : String)
    (h : ∀ c ∈ s.data, isWordChar c = false ∧ isSpaceChar c = false) :
    cleanStr s = [] := by
  unfold cleanStr
  rw [List.filter_eq_nil_iff]
  intro a ha
  obtain ⟨c, hc, rfl⟩ := List.mem_map.mp ha
  obtain ⟨hw, hs⟩ := h c hc
  rw [toLower_of_not_word c hw]
  simp [hw, hs]

lemma isAbsoluteUrlL_append_https (t : List Char) :
    isAbsoluteUrlL ("https://".data ++ t) = true := by
  unfold isAbsoluteUrlL
  rw [startsWithL_append_self]
  simp

lemma isAbsoluteUrlL_append_http (t : List Char) :
    isAbsoluteUrlL ("http://".data ++ t) = true := by
  unfold isAbsoluteUrlL
  rw [startsWithL_append_self]
  simp

lemma isAbsoluteUrl_https_append (pre t : String)
    (h : startsWithL "https://".data pre.data = true) :
    isAbsoluteUrl (pre ++ t) = true := by
  obtain ⟨rest, hr⟩ := (startsWithL_iff _ _).mp h
  unfold isAbsoluteUrl
  rw [String.data_append, hr, List.append_assoc]
  exact isAbsoluteUrlL_append_https _

lemma upToLastSlash_append (x : List Char) :
    ∀ (y r : List Char), upToLastSlash y = some r →
      upToLastSlash (x ++ y) = some (x ++ r) := by
  induction x with
  | nil => intro y r h; simpa using h
  | cons c t ih =>
    intro y r h
    show upToLastSlash (c :: (t ++ y)) = some (c :: (t ++ r))
    unfold upToLastSlash
    rw [ih y r h]

lemma upToLastSlash_slash (t : List Char) :
    ∃ r, upToLastSlash ('/' :: t) = some ('/' :: r) := by
  cases h : upToLastSlash t with
  | some r => exact ⟨r, by simp [upToLastSlash, h]⟩
  | none => exact ⟨[], by simp [upToLastSlash, h]⟩

lemma resolveUrl_abs (href base : String) (h : isAbsoluteUrl base = true) :
    isAbsoluteUrl (resolveUrl href base) = true := by
  have hb := h
  unfold isAbsoluteUrl isAbsoluteUrlL at hb
  unfold resolveUrl
  by_cases h1 : isAbsoluteUrlL href.data = true
  · rw [if_pos h1]; exact h1
  · rw [if_neg h1]
    by_cases h2 : href = ""
    · rw [if_pos h2]; exact h
    · rw [if_neg h2]
      by_cases h3 : startsWithL "//".data href.data = true
      · rw [if_pos h3]
        obtain ⟨t, ht⟩ := (startsWithL_iff _ _).mp h3
        by_cases h4 : startsWithL "http://".data base.data = true
        · rw [if_pos h4]
          show isAbsoluteUrlL ("http:".data ++ href.data) = true
          rw [ht, show ("http:".data ++ ("//".data ++ t)) = "http://".data ++ t from rfl]
          exact isAbsoluteUrlL_append_http _
        · rw [if_neg h4]
          show isAbsoluteUrlL ("https:".data ++ href.data) = true
          rw [ht, show ("https:".data ++ ("//".data ++ t)) = "https://".data ++ t from rfl]
          exact isAbsoluteUrlL_append_https _
      · rw [if_neg h3]
        by_cases h5 : startsWithL "/".data href.data = true
        · rw [if_pos h5]
          show isAbsoluteUrlL (urlOriginL base.data ++ href.data) = true
          rcases Bool.or_eq_true_iff.mp hb with hsch | hsch
          · obtain ⟨t, ht⟩ := (startsWithL_iff _ _).mp hsch
            have hnb : startsWithL "https://".data base.data = false := by
              rw [ht]; rfl
            unfold urlOriginL
            rw [hnb, hsch]
            simp only [Bool.false_eq_true, if_false, if_true]
            rw [List.append_assoc]
            exact isAbsoluteUrlL_append_http _
          · unfold urlOriginL
            rw [hsch]
            simp only [if_true]
            rw [List.append_assoc]
            exact isAbsoluteUrlL_append_https _
        · rw [if_neg h5]
          show isAbsoluteUrlL (urlDirL base.data ++ href.data) = true
          unfold urlDirL
          rcases Bool.or_eq_true_iff.mp hb with hsch | hsch
          · obtain ⟨t, ht⟩ := (startsWithL_iff _ _).mp hsch
            obtain ⟨r, hr⟩ := upToLastSlash_slash t
            have hup := upToLastSlash_append "http:/".data ('/' :: t) ('/' :: r) hr
            rw [show base.data = "http:/".data ++ ('/' :: t) from ht, hup]
            simp only [Option.getD_some]
            rw [show ("http:/".data ++ ('/' :: r)) = "http://".data ++ r from rfl,
              List.append_assoc]
            exact isAbsoluteUrlL_append_http _
          · obtain ⟨t, ht⟩ := (startsWithL_iff _ _).mp hsch
            obtain ⟨r, hr⟩ := upToLastSlash_slash t
            have hup := upToLastSlash_append "https:/".data ('/' :: t) ('/' :: r) hr
            rw [show base.data = "https:/".data ++ ('/' :: t) from ht, hup]
            simp only [Option.getD_some]
            rw [show ("https:/".data ++ ('/' :: r)) = "https://".data ++ r from rfl,
              List.append_assoc]
            exact isAbsoluteUrlL_append_https _

lemma isYearInRange_iff (y : Nat) :
    isYearInRange y = true ↔ 2000 ≤ y ∧ y ≤ 2025 := by
  simp [isYearInRange]

lemma yearFromPatterns_cases (ps : List (List Char → Bool)) (cs : List Char) :
    yearFromPatterns ps cs = "Unknown" ∨
      ∃ y, isYearInRange y = true ∧ yearFromPatterns ps cs = toString y := by
  induction ps with
  | nil => exact Or.inl rfl
  | cons p ps ih =>
    unfold yearFromPatterns
    cases hm : firstYearMatch p cs with
    | none => exact ih
    | some y =>
      cases hr : isYearInRange y with
      | true => exact Or.inr ⟨y, hr, by simp [hr]⟩
      | false => simpa [hr] using ih

lemma extractYear_cases (t : String) :
    extractYear t = "Unknown" ∨
      ∃ y, 2000 ≤ y ∧ y ≤ 2025 ∧ extractYear t = toString y := by
  rcases yearFromPatterns_cases [matches20, matches4] t.data with h | ⟨y, hy, h⟩
  · exact Or.inl h
  · obtain ⟨h1, h2⟩ := (isYearInRange_iff y).mp hy
    exact Or.inr ⟨y, h1, h2, h⟩

lemma dedupGo_countP (u : String) (l : List SearchResult) :
    ∀ seen : List String,
      (dedupGo seen l).countP (fun r => r.url == u) =
        if u ∈ seen then 0 else if l.any (fun r => r.url == u) then 1 else 0 := by
  induction l with
  | nil => intro seen; simp [dedupGo]
  | cons r t ih =>
    intro seen
    unfold dedupGo
    by_cases hm : r.url ∈ seen
    · rw [if_pos hm, ih seen]
      by_cases hu : u ∈ seen
      · simp [hu]
      · have hne : (r.url == u) = false := by
          rw [beq_eq_false_iff_ne]
          intro he; exact hu (he ▸ hm)
        simp [hu, List.any_cons, hne]
    · rw [if_neg hm]
      rw [List.countP_cons, ih (r.url :: seen)]
      by_cases hu : u ∈ seen
      · have hne : (r.url == u) = false := by
          rw [beq_eq_false_iff_ne]
          intro he; exact hm (he ▸ hu)
        simp [hu, hne, List.mem_cons]
      · by_cases he : r.url = u
        · subst he
          simp [hm, hu, List.mem_cons]
        · have hne : (r.url == u) = false := by
            rw [beq_eq_false_iff_ne]; exact he
          have hmem : ¬u ∈ r.url :: seen := by
            rw [List.mem_cons]
            rintro (h1 | h1)
            · exact he h1.symm
            · exact hu h1
          simp [hu, hmem, hne, List.any_cons]

lemma dedupGo_mem_find (l : List SearchResult) :
    ∀ (seen : List String) (r : SearchResult),
      r ∈ dedupGo seen l →
        ¬r.url ∈ seen ∧ l.find? (fun x => x.url == r.url) = some r := by
  induction l with
  | nil => intro seen r h; simp [dedupGo] at h
  | cons x t ih =>
    intro seen r h
    unfold dedupGo at h
    by_cases hm : x.url ∈ seen
    · rw [if_pos hm] at h
      obtain ⟨hns, hf⟩ := ih seen r h
      refine ⟨hns, ?_⟩
      have hxr : ¬((fun y : SearchResult => y.url == r.url) x) = true := by
        intro he
        exact hns ((beq_iff_eq.mp he) ▸ hm)
      rw [@List.find?_cons_of_neg _ (fun y : SearchResult => y.url == r.url) x t hxr]
      exact hf
    · rw [if_neg hm] at h
      rcases List.mem_cons.mp h with rfl | h2
      · refine ⟨hm, ?_⟩
        rw [List.find?_cons_of_pos]
        simp
      · obtain ⟨hns, hf⟩ := ih (x.url :: seen) r h2
        have hxr : ¬((fun y : SearchResult => y.url == r.url) x) = true := by
          intro he
          exact hns ((beq_iff_eq.mp he) ▸ List.mem_cons_self x.url seen)
        refine ⟨fun hs => hns (List.mem_cons_of_mem _ hs), ?_⟩
        rw [@List.find?_cons_of_neg _ (fun y : SearchResult => y.url == r.url) x t hxr]
        exact hf

lemma fetchLoop_results_nil {U R : Type} (nm : U → String)
    (ur : U → R → List SearchResult) (d : Nat)
    (pairs : List (U × Except String R))
    (h : ∀ p ∈ pairs, p.2.isOk = false) :
    (fetchLoop nm ur d pairs).1 = [] := by
  induction pairs with
  | nil => rfl
  | cons p rest ih =>
    obtain ⟨u, resp⟩ := p
    cases resp with
    | error e =>
      show (fetchLoop nm ur d rest).1 = []
      exact ih fun q hq => h q (List.mem_cons_of_mem _ hq)
    | ok x =>
      have := h (u, Except.ok x) (List.mem_cons_self _ _)
      simp [Except.isOk, Except.toBool] at this

lemma fetchLoop_requests {U R : Type} (nm : U → String)
    (ur : U → R → List SearchResult) (d : Nat)
    (pairs : List (U × Except String R)) :
    requestsOf (fetchLoop nm ur d pairs).2 = pairs.map (fun p => nm p.1) := by
  induction pairs with
  | nil => rfl
  | cons p rest ih =>
    obtain ⟨u, resp⟩ := p
    cases resp with
    | error e => simpa [fetchLoop, requestsOf, List.filterMap_cons] using ih
    | ok x => simpa [fetchLoop, requestsOf, List.filterMap_cons] using ih

lemma fetchLoop_paced {U R : Type} (nm : U → String)
    (ur : U → R → List SearchResult) (d : Nat)
    (pairs : List (U × Except String R))
    (h : ∀ p ∈ pairs, p.2.isOk = true) :
    pacedEvents d (fetchLoop nm ur d pairs).2 = true := by
  induction pairs with
  | nil => rfl
  | cons p rest ih =>
    obtain ⟨u, resp⟩ := p
    cases resp with
    | error e =>
      have := h (u, Except.error e) (List.mem_cons_self _ _)
      simp [Except.isOk, Except.toBool] at this
    | ok x =>
      have hr := ih fun q hq => h q (List.mem_cons_of_mem _ hq)
      simpa [fetchLoop, pacedEvents] using hr

lemma fetchLoop_delayCount {U R : Type} (nm : U → String)
    (ur : U → R → List SearchResult) (d : Nat)
    (pairs : List (U × Except String R)) :
    delayCount (fetchLoop nm ur d pairs).2 =
      pairs.countP (fun p => p.2.isOk) := by
  induction pairs with
  | nil => rfl
  | cons p rest ih =>
    obtain ⟨u, resp⟩ := p
    cases resp with
    | error e =>
      simpa [fetchLoop, delayCount, List.countP_cons, Except.isOk, Except.toBool] using ih
    | ok x =>
      simpa [fetchLoop, delayCount, List.countP_cons, Except.isOk, Except.toBool] using ih

lemma fetchLoop_mem {U R : Type} (nm : U → String)
    (ur : U → R → List SearchResult) (d : Nat)
    (pairs : List (U × Except String R)) (r : SearchResult)
    (h : r ∈ (fetchLoop nm ur d pairs).1) :
    ∃ p, p ∈ pairs ∧ ∃ x, p.2 = Except.ok x ∧ r ∈ ur p.1 x := by
  induction pairs with
  | nil => simp [fetchLoop] at h
  | cons p rest ih =>
    obtain ⟨u, resp⟩ := p
    cases resp with
    | error e =>
      obtain ⟨q, hq, hx⟩ := ih h
      exact ⟨q, List.mem_cons_of_mem _ hq, hx⟩
    | ok x =>
      rcases List.mem_append.mp h with h1 | h2
      · exact ⟨(u, Except.ok x), List.mem_cons_self _ _, x, rfl, h1⟩
      · obtain ⟨q, hq, hx⟩ := ih h2
        exact ⟨q, List.mem_cons_of_mem _ hq, hx⟩

lemma searchArchiveOrg_mem (name : String)
    (resp : Except String ArchiveOrgResponse) (r : SearchResult)
    (h : r ∈ searchArchiveOrg name resp) :
    r.source = "archive.org" ∧ verifyMagazineIdentity name r.title = true ∧
      ∃ id, r.url = "https://archive.org/details/" ++ id := by
  cases resp with
  | error e => simp [searchArchiveOrg] at h
  | ok data =>
    cases hr1 : data.response with
    | none => simp [searchArchiveOrg, hr1] at h
    | some body =>
      cases hr2 : body.docs with
      | none => simp [searchArchiveOrg, hr1, hr2] at h
      | some docs =>
        simp only [searchArchiveOrg, hr1, hr2, List.mem_filterMap] at h
        obtain ⟨item, _, he⟩ := h
        split at he
        · obtain rfl := Option.some.inj he
          exact ⟨rfl, by assumption, item.identifier, rfl⟩
        · simp at he

lemma searchGoogleBooks_mem (name : String)
    (resp : Except String GoogleBooksResponse) (r : SearchResult)
    (h : r ∈ searchGoogleBooks name resp) :
    r.source = "google_books" ∧ r.year ≠ "Unknown" ∧
      verifyMagazineIdentity name r.title = true ∧
      ∃ y, 2000 ≤ y ∧ y ≤ 2025 ∧ r.year = toString y := by
  cases resp with
  | error e => simp [searchGoogleBooks] at h
  | ok data =>
    cases hr1 : data.items with
    | none => simp [searchGoogleBooks, hr1] at h
    | some items =>
      simp only [searchGoogleBooks, hr1, List.mem_filterMap] at h
      obtain ⟨item, _, he⟩ := h
      cases hvi : item.volumeInfo with
      | none => rw [hvi] at he; simp at he
      | some volumeInfo =>
        simp only [hvi] at he
        cases hti : volumeInfo.title with
        | none => simp [hti] at he
        | some t =>
          simp only [hti] at he
          split at he
          · split at he
            · rename_i hcond
              obtain rfl := Option.some.inj he
              refine ⟨rfl, hcond.1, hcond.2, ?_⟩
              rcases extractYear_cases (jsOr volumeInfo.publishedDate "") with
                hu | ⟨y, h1, h2, h3⟩
              · exact absurd hu hcond.1
              · exact ⟨y, h1, h2, h3⟩
            · simp at he
          · simp at he

lemma redditUnit_mem (name sub : String) (data : RedditResponse)
    (r : SearchResult) (h : r ∈ redditUnit name sub data) :
    r.source = "reddit/r/" ++ sub ∧ verifyMagazineIdentity name r.title = true ∧
      ∃ perma, r.url = "https://reddit.com" ++ perma := by
  cases hr1 : data.data with
  | none => simp [redditUnit, hr1] at h
  | some d =>
    cases hr2 : d.children with
    | none => simp [redditUnit, hr1, hr2] at h
    | some children =>
      simp only [redditUnit, hr1, hr2, List.mem_filterMap] at h
      obtain ⟨post, _, he⟩ := h
      split at he
      · obtain rfl := Option.some.inj he
        exact ⟨rfl, by assumption, post.data.permalink, rfl⟩
      · simp at he

lemma dlUnit_mem (name : String) (lib : DigitalLibrary)
    (elems : List ScrapedElem) (r : SearchResult)
    (h : r ∈ dlUnit name lib elems) :
    r.source = lib.name ∧ verifyMagazineIdentity name r.title = true ∧
      (∃ href, r.url = resolveUrl href lib.url) ∧
      ∃ txt, r.year = extractYear txt := by
  unfold dlUnit at h
  simp only [List.mem_filterMap] at h
  obtain ⟨el, _, he⟩ := h
  split at he
  · rename_i hcond
    obtain rfl := Option.some.inj he
    exact ⟨rfl, hcond.2, ⟨jsOr el.linkHref "", rfl⟩, el.fullText, rfl⟩
  · simp at he

lemma webUnit_mem (name : String) (engine : DigitalLibrary)
    (elems : List ScrapedElem) (r : SearchResult)
    (h : r ∈ webUnit name engine elems) :
    r.source = engine.name ∧ verifyMagazineIdentity name r.title = true ∧
      (∃ el : ScrapedElem, el.linkHref = some r.url) ∧
      ∃ txt, r.year = extractYear txt := by
  unfold webUnit at h
  simp only [List.mem_filterMap] at h
  obtain ⟨el, _, he⟩ := h
  cases hl : el.linkHref with
  | none => rw [hl] at he; simp at he
  | some url =>
    simp only [hl] at he
    split at he
    · rename_i hcond
      obtain rfl := Option.some.inj he
      exact ⟨rfl, hcond.2.2, ⟨el, hl⟩, jsTrim el.titleText ++ " " ++ jsTrim el.descriptionText, rfl⟩
    · simp at he

lemma libraries_url_abs (lib : DigitalLibrary) (h : lib ∈ libraries) :
    isAbsoluteUrl lib.url = true := by
  fin_cases h <;> decide

lemma searchDigitalLibraries_mem (name : String)
    (resps : List (Except String (List ScrapedElem))) (r : SearchResult)
    (h : r ∈ searchDigitalLibraries name resps) :
    verifyMagazineIdentity name r.title = true ∧ isAbsoluteUrl r.url = true ∧
      ∃ txt, r.year = extractYear txt := by
  unfold searchDigitalLibraries libLoop at h
  obtain ⟨p, hp, x, _, hr⟩ := fetchLoop_mem _ _ _ _ r h
  have hlib : p.1 ∈ libraries := (List.of_mem_zip hp).1
  obtain ⟨-, hv, ⟨href, hurl⟩, hy⟩ := dlUnit_mem name p.1 x r hr
  refine ⟨hv, ?_, hy⟩
  rw [hurl]
  exact resolveUrl_abs _ _ (libraries_url_abs p.1 hlib)

lemma searchRedditArchives_mem (name : String)
    (resps : List (Except String RedditResponse)) (r : SearchResult)
    (h : r ∈ searchRedditArchives name resps) :
    verifyMagazineIdentity name r.title = true ∧ isAbsoluteUrl r.url = true := by
  unfold searchRedditArchives redditLoop at h
  obtain ⟨p, _, x, _, hr⟩ := fetchLoop_mem _ _ _ _ r h
  obtain ⟨-, hv, ⟨perma, hurl⟩⟩ := redditUnit_mem name p.1 x r hr
  refine ⟨hv, ?_⟩
  rw [hurl]
  exact isAbsoluteUrl_https_append "https://reddit.com" perma (by decide)

lemma searchGeneralWeb_mem (name : String)
    (resps : List (Except String (List ScrapedElem))) (r : SearchResult)
    (h : r ∈ searchGeneralWeb name resps) :
    verifyMagazineIdentity name r.title = true ∧
      ∃ txt, r.year = extractYear txt := by
  unfold searchGeneralWeb webLoop at h
  obtain ⟨p, _, x, _, hr⟩ := fetchLoop_mem _ _ _ _ r h
  obtain ⟨-, hv, -, hy⟩ := webUnit_mem name p.1 x r hr
  exact ⟨hv, hy⟩

lemma searchArchiveOrg_url_abs (name : String)
    (resp : Except String ArchiveOrgResponse) (r : SearchResult)
    (h : r ∈ searchArchiveOrg name resp) : isAbsoluteUrl r.url = true := by
  obtain ⟨-, -, id, hurl⟩ := searchArchiveOrg_mem name resp r h
  rw [hurl]
  exact isAbsoluteUrl_https_append "https://archive.org/details/" id (by decide)

/-- A world in which every request of every fetcher throws (used by the
aggregator-resilience witness). -/
def wAllFail : World :=
  { archiveResp := Except.error "net"
    googleResp := Except.error "net"
    redditResps := [Except.error "a", Except.error "b", Except.error "c",
      Except.error "d"]
    libraryResps := [Except.error "a", Except.error "b", Except.error "c",
      Except.error "d"]
    webResps := [Except.error "a", Except.error "b"] }

/-- A Google Books response with one fully-populated item (used by several
witnesses). -/
def gResp : Except String GoogleBooksResponse :=
  Except.ok ⟨some [⟨some ⟨some "Widget", some "2015-06-01", none,
    some "http://g/x"⟩⟩]⟩

/-- C1: every fetcher resolves a thrown request to an empty result list
(for the three multi-site fetchers: a run in which every unit's request
throws yields the empty list), and consequently when one fetcher
strategy's every request fails, `searchAll` returns exactly the
deduplicated results contributed by the other four strategies. -/
theorem searchAll_isolates_failed_fetchers (name : String) (w : World) :
    (∀ e, searchArchiveOrg name (Except.error e) = []) ∧
    (∀ e, searchGoogleBooks name (Except.error e) = []) ∧
    (∀ resps : List (Except String RedditResponse),
      (∀ r ∈ resps, r.isOk = false) → searchRedditArchives name resps = []) ∧
    (∀ resps : List (Except String (List ScrapedElem)),
      (∀ r ∈ resps, r.isOk = false) → searchDigitalLibraries name resps = []) ∧
    (∀ resps : List (Except String (List ScrapedElem)),
      (∀ r ∈ resps, r.isOk = false) → searchGeneralWeb name resps = []) ∧
    ((∃ e, w.archiveResp = Except.error e) →
      searchAll name w = deduplicateResults
        (searchGoogleBooks name w.googleResp ++
          searchRedditArchives name w.redditResps ++
          searchDigitalLibraries name w.libraryResps ++
          searchGeneralWeb name w.webResps)) ∧
    ((∃ e, w.googleResp = Except.error e) →
      searchAll name w = deduplicateResults
        (searchArchiveOrg name w.archiveResp ++
          searchRedditArchives name w.redditResps ++
          searchDigitalLibraries name w.libraryResps ++
          searchGeneralWeb name w.webResps)) ∧
    ((∀ r ∈ w.redditResps, r.isOk = false) →
      searchAll name w = deduplicateResults
        (searchArchiveOrg name w.archiveResp ++
          searchGoogleBooks name w.googleResp ++
          searchDigitalLibraries name w.libraryResps ++
          searchGeneralWeb name w.webResps)) ∧
    ((∀ r ∈ w.libraryResps, r.isOk = false) →
      searchAll name w = deduplicateResults
        (searchArchiveOrg name w.archiveResp ++
          searchGoogleBooks name w.googleResp ++
          searchRedditArchives name w.redditResps ++
          searchGeneralWeb name w.webResps)) ∧
    ((∀ r ∈ w.webResps, r.isOk = false) →
      searchAll name w = deduplicateResults
        (searchArchiveOrg name w.archiveResp ++
          searchGoogleBooks name w.googleResp ++
          searchRedditArchives name w.redditResps ++
          searchDigitalLibraries name w.libraryResps)) := by
  have hred : ∀ resps : List (Except String RedditResponse),
      (∀ r ∈ resps, r.isOk = false) → searchRedditArchives name resps = [] := by
    intro resps h
    unfold searchRedditArchives redditLoop
    exact fetchLoop_results_nil _ _ _ _ (fun p hp => h p.2 (List.of_mem_zip hp).2)
  have hlib : ∀ resps : List (Except String (List ScrapedElem)),
      (∀ r ∈ resps, r.isOk = false) → searchDigitalLibraries name resps = [] := by
    intro resps h
    unfold searchDigitalLibraries libLoop
    exact fetchLoop_results_nil _ _ _ _ (fun p hp => h p.2 (List.of_mem_zip hp).2)
  have hweb : ∀ resps : List (Except String (List ScrapedElem)),
      (∀ r ∈ resps, r.isOk = false) → searchGeneralWeb name resps = [] := by
    intro resps h
    unfold searchGeneralWeb webLoop
    exact fetchLoop_results_nil _ _ _ _ (fun p hp => h p.2 (List.of_mem_zip hp).2)
  refine ⟨fun e => rfl, fun e => rfl, hred, hlib, hweb, ?_, ?_, ?_, ?_, ?_⟩
  · rintro ⟨e, he⟩
    unfold searchAll
    rw [he, show searchArchiveOrg name (Except.error e) = [] from rfl,
      List.nil_append]
  · rintro ⟨e, he⟩
    unfold searchAll
    rw [he, show searchGoogleBooks name (Except.error e) = [] from rfl,
      List.append_nil]
  · intro h
    unfold searchAll
    rw [hred _ h, List.append_nil]
  · intro h
    unfold searchAll
    rw [hlib _ h, List.append_nil]
  · intro h
    unfold searchAll
    rw [hweb _ h, List.append_nil]

/-- C1 witness: in a concrete world where all requests fail, the failed
fetchers yield `[]` and `searchAll` equals the merge of the other
strategies' outputs. -/
theorem searchAll_isolates_failed_fetchers_witness :
    searchArchiveOrg "Widget Monthly" (Except.error "net") = [] ∧
    searchRedditArchives "Widget Monthly" wAllFail.redditResps = [] ∧
    searchAll "Widget Monthly" wAllFail = deduplicateResults
      (searchGoogleBooks "Widget Monthly" wAllFail.googleResp ++
        searchRedditArchives "Widget Monthly" wAllFail.redditResps ++
        searchDigitalLibraries "Widget Monthly" wAllFail.libraryResps ++
        searchGeneralWeb "Widget Monthly" wAllFail.webResps) := by
  have h := searchAll_isolates_failed_fetchers "Widget Monthly" wAllFail
  exact ⟨h.1 "net", h.2.2.1 _ (by decide), h.2.2.2.2.2.1 ⟨"net", rfl⟩⟩

/-- C2: deduplication keeps a record only the first time its `url` value
is seen — for every url the output retains exactly one record when the url
occurs in the input (and it is the input's first record with that url) —
and in particular an input holding two records with the same `url` but
different `title` produces exactly one output record with that url. -/
theorem deduplicateResults_keeps_first_url (l : List SearchResult) :
    (∀ u : String, (deduplicateResults l).countP (fun r => r.url == u) =
        if l.any (fun r => r.url == u) then 1 else 0) ∧
    (∀ r ∈ deduplicateResults l, l.find? (fun x => x.url == r.url) = some r) ∧
    (∀ r₁ r₂ : SearchResult, r₁ ∈ l → r₂ ∈ l → r₁.url = r₂.url →
      r₁.title ≠ r₂.title →
      (deduplicateResults l).countP (fun r => r.url == r₁.url) = 1) := by
  refine ⟨?_, ?_, ?_⟩
  · intro u
    simpa [deduplicateResults] using dedupGo_countP u l []
  · intro r hr
    exact (dedupGo_mem_find l [] r hr).2
  · intro r₁ r₂ h1 h2 hu ht
    have hany : l.any (fun r => r.url == r₁.url) = true := by
      rw [List.any_eq_true]
      exact ⟨r₁, h1, by simp⟩
    simpa [deduplicateResults, hany] using dedupGo_countP r₁.url l []

/-- C2 witness: two records sharing a url with different titles collapse
to exactly one output record with that url. -/
theorem deduplicateResults_keeps_first_url_witness :
    (deduplicateResults
        [⟨"s1", "A", "2010", "http://x", ""⟩,
          ⟨"s2", "B", "2011", "http://x", ""⟩]).countP
      (fun r => r.url == "http://x") = 1 :=
  (deduplicateResults_keeps_first_url
      [⟨"s1", "A", "2010", "http://x", ""⟩, ⟨"s2", "B", "2011", "http://x", ""⟩]).2.2
    ⟨"s1", "A", "2010", "http://x", ""⟩ ⟨"s2", "B", "2011", "http://x", ""⟩
    (by decide) (by decide) rfl (by decide)

/-- C3 counterexample: the catalog-A fetcher copies the source's `year`
field verbatim, so a doc carrying year `"1987"` is emitted with a year
that is neither `"Unknown"` nor within [2000, 2025], refuting the claimed
invariant for "any of the five fetchers". -/
theorem archiveOrg_year_escapes_range :
    searchArchiveOrg "Widget"
        (Except.ok ⟨some ⟨some [⟨"old1", "Widget", some "1987", none⟩]⟩⟩) =
      [⟨"archive.org", "Widget", "1987", "https://archive.org/details/old1", ""⟩] ∧
    claimYearOk "1987" = false := by
  exact ⟨by decide, by decide⟩

/-- C3 (amended): the [2000, 2025]-or-`"Unknown"` year invariant holds for
the fetchers that derive the year through the Year Extractor — the
book-metadata, digital-library and general-web fetchers — while the
catalog-A fetcher copies the source's year field and the social fetcher
uses the post timestamp's year, neither range-checked. -/
theorem year_range_for_extractor_backed_fetchers (name : String)
    (gresp : Except String GoogleBooksResponse)
    (lresps wresps : List (Except String (List ScrapedElem))) :
    (∀ r ∈ searchGoogleBooks name gresp,
      ∃ y, 2000 ≤ y ∧ y ≤ 2025 ∧ r.year = toString y) ∧
    (∀ r ∈ searchDigitalLibraries name lresps,
      r.year = "Unknown" ∨ ∃ y, 2000 ≤ y ∧ y ≤ 2025 ∧ r.year = toString y) ∧
    (∀ r ∈ searchGeneralWeb name wresps,
      r.year = "Unknown" ∨ ∃ y, 2000 ≤ y ∧ y ≤ 2025 ∧ r.year = toString y) := by
  refine ⟨?_, ?_, ?_⟩
  · intro r h
    exact (searchGoogleBooks_mem name gresp r h).2.2.2
  · intro r h
    obtain ⟨-, -, txt, hy⟩ := searchDigitalLibraries_mem name lresps r h
    rw [hy]
    exact extractYear_cases txt
  · intro r h
    obtain ⟨-, txt, hy⟩ := searchGeneralWeb_mem name wresps r h
    rw [hy]
    exact extractYear_cases txt

/-- C3 witness: a concrete Google Books record's year lies in range. -/
theorem year_range_for_extractor_backed_fetchers_witness :
    ∃ y, 2000 ≤ y ∧ y ≤ 2025 ∧ ("2015" : String) = toString y :=
  (year_range_for_extractor_backed_fetchers "Widget" gResp [] []).1
    ⟨"google_books", "Widget", "2015", "http://g/x", ""⟩ (by decide)

/-- C4 counterexample: the general-web fetcher copies the raw `href` into
`url` (emitting a relative link unresolved) and the book-metadata fetcher
emits `previewLink || ''` (emitting the empty string when the link is
missing), so not every emitted `url` is a fully resolved absolute URL. -/
theorem generalWeb_url_not_resolved :
    searchGeneralWeb "Widget"
        [Except.ok [⟨"Widget Magazine", some "/rel?q=1", "desc", ""⟩],
          Except.ok []] =
      [⟨"Google", "Widget Magazine", "Unknown", "/rel?q=1", "desc"⟩] ∧
    isAbsoluteUrl "/rel?q=1" = false ∧
    searchGoogleBooks "Widget"
        (Except.ok ⟨some [⟨some ⟨some "Widget", some "2015", none, none⟩⟩]⟩) =
      [⟨"google_books", "Widget", "2015", "", ""⟩] ∧
    isAbsoluteUrl "" = false := by
  exact ⟨by decide, by decide, by decide, by decide⟩

/-- C4 (amended): the absolute-URL invariant holds for the catalog-A
fetcher (URL built on a fixed `https` detail prefix), the social fetcher
(fixed `https` base plus permalink) and the digital-library fetcher (the
only one that resolves its links, against the site's base URL); the
book-metadata and general-web fetchers copy the source link verbatim, so
their urls need not be absolute. -/
theorem absolute_urls_for_resolving_fetchers (name : String)
    (aresp : Except String ArchiveOrgResponse)
    (rresps : List (Except String RedditResponse))
    (lresps : List (Except String (List ScrapedElem))) :
    (∀ r ∈ searchArchiveOrg name aresp, isAbsoluteUrl r.url = true) ∧
    (∀ r ∈ searchRedditArchives name rresps, isAbsoluteUrl r.url = true) ∧
    (∀ r ∈ searchDigitalLibraries name lresps, isAbsoluteUrl r.url = true) := by
  refine ⟨?_, ?_, ?_⟩
  · intro r h
    exact searchArchiveOrg_url_abs name aresp r h
  · intro r h
    exact (searchRedditArchives_mem name rresps r h).2
  · intro r h
    exact (searchDigitalLibraries_mem name lresps r h).2.1

/-- C4 witness: a concrete catalog-A record's url is absolute. -/
theorem absolute_urls_for_resolving_fetchers_witness :
    isAbsoluteUrl "https://archive.org/details/wm12" = true :=
  (absolute_urls_for_resolving_fetchers "Widget Monthly"
      (Except.ok ⟨some ⟨some [⟨"wm12", "Widget Monthly", some "2012", none⟩]⟩⟩)
      [] []).1
    ⟨"archive.org", "Widget Monthly", "2012",
      "https://archive.org/details/wm12", ""⟩ (by decide)

/-- C5 counterexample: on `"issue 2030 and 2015"` the code returns
`"Unknown"` — each pattern's first match is 2030, out of range, and later
matches are never examined — while the spec's "first match whose integer
value falls in [2000, 2025]" is 2015. -/
theorem extractYear_skips_later_in_range_match :
    extractYear "issue 2030 and 2015" = "Unknown" ∧
    specExtractYear "issue 2030 and 2015" = "2015" := by
  exact ⟨by decide, by decide⟩

/-- C5 (amended): `extractYear` tries the `20xx` pattern first, then the
generic 4-digit pattern, but examines only the first match of each
pattern: it returns that match when its value lies in [2000, 2025] and
otherwise falls through to the next pattern (never to a later match of the
same pattern), returning `"Unknown"` when no pattern's first match is in
range; the four concrete examples of the claim hold. -/
theorem extractYear_first_match_per_pattern :
    (∀ (t : String) (y : Nat), firstYearMatch matches20 t.data = some y →
      isYearInRange y = true → extractYear t = toString y) ∧
    (∀ t : String,
      (firstYearMatch matches20 t.data = none ∨
        ∃ y, firstYearMatch matches20 t.data = some y ∧ isYearInRange y = false) →
      extractYear t =
        (match firstYearMatch matches4 t.data with
         | some y => if isYearInRange y then toString y else "Unknown"
         | none => "Unknown")) ∧
    extractYear "Published 2015" = "2015" ∧
    extractYear "copyright 1998" = "Unknown" ∧
    extractYear "no digits here" = "Unknown" ∧
    extractYear "issue 2030 retro" = "Unknown" := by
  refine ⟨?_, ?_, by decide, by decide, by decide, by decide⟩
  · intro t y hm hr
    show yearFromPatterns [matches20, matches4] t.data = toString y
    simp [yearFromPatterns, hm, hr]
  · intro t h
    have hy4 : yearFromPatterns [matches4] t.data =
        (match firstYearMatch matches4 t.data with
         | some y => if isYearInRange y then toString y else "Unknown"
         | none => "Unknown") := by
      cases h4 : firstYearMatch matches4 t.data <;> simp [yearFromPatterns, h4]
    have hhead : yearFromPatterns [matches20, matches4] t.data =
        yearFromPatterns [matches4] t.data := by
      rcases h with hm | ⟨y, hm, hr⟩
      · simp [yearFromPatterns, hm]
      · simp [yearFromPatterns, hm, hr]
    exact hhead.trans hy4

/-- C5 witness: the first-conjunct behaviour at a concrete text. -/
theorem extractYear_first_match_per_pattern_witness :
    extractYear "Published 2015" = toString (2015 : Nat) :=
  (extractYear_first_match_per_pattern).1 "Published 2015" 2015
    (by decide) (by decide)

/-- C6: identity verification lowercases both strings, strips every
character that is neither a word character nor whitespace, rejects empty
candidates, and otherwise accepts exactly when the cleaned candidate
equals the cleaned target or contains it as a contiguous substring; the
claim's four concrete example verdicts hold (`verify(x, x)` for non-empty
x, rejection of the empty candidate, acceptance of the suffixed title,
rejection of the unrelated title). -/
theorem verifyMagazineIdentity_spec :
    (∀ x : String, x ≠ "" → verifyMagazineIdentity x x = true) ∧
    (∀ target : String, verifyMagazineIdentity target "" = false) ∧
    (∀ target cand : String,
      verifyMagazineIdentity target cand = true ↔
        cand ≠ "" ∧ (cleanStr cand = cleanStr target ∨
          ∃ l₁ l₂, cleanStr cand = l₁ ++ cleanStr target ++ l₂)) ∧
    verifyMagazineIdentity "Target Weekly" "The Target Weekly Issue 4" = true ∧
    verifyMagazineIdentity "Target Weekly" "Unrelated Journal" = false := by
  refine ⟨?_, ?_, ?_, by decide, by decide⟩
  · intro x hx
    unfold verifyMagazineIdentity
    rw [if_neg hx]
    simp
  · intro target
    rfl
  · intro target cand
    unfold verifyMagazineIdentity
    by_cases hc : cand = ""
    · simp [hc]
    · rw [if_neg hc]
      simp only [Bool.or_eq_true, beq_iff_eq, hasSubstring_iff]
      constructor
      · rintro (h | h)
        · exact ⟨hc, Or.inl h⟩
        · exact ⟨hc, Or.inr h⟩
      · rintro ⟨-, h | h⟩
        · exact Or.inl h
        · exact Or.inr h

/-- C6 witness: reflexive acceptance at a concrete non-empty title, and
the substring characterisation applied to the suffixed-title example. -/
theorem verifyMagazineIdentity_spec_witness :
    verifyMagazineIdentity "Widget Monthly" "Widget Monthly" = true ∧
    (cleanStr "The Target Weekly Issue 4" = cleanStr "Target Weekly" ∨
      ∃ l₁ l₂, cleanStr "The Target Weekly Issue 4" =
        l₁ ++ cleanStr "Target Weekly" ++ l₂) := by
  constructor
  · exact (verifyMagazineIdentity_spec).1 "Widget Monthly" (by decide)
  · exact (((verifyMagazineIdentity_spec).2.2.1 "Target Weekly"
      "The Target Weekly Issue 4").mp (by decide)).2

/-- C7: the book-metadata fetcher emits a record only when its extracted
year is not `"Unknown"` (hence lies in [2000, 2025]) and its title passes
identity verification; the other fetchers keep unresolved years as
`"Unknown"`-tagged records, witnessed concretely for the catalog-A,
digital-library and general-web fetchers. -/
theorem googleBooks_hard_rejects_unknown_year :
    (∀ (name : String) (resp : Except String GoogleBooksResponse)
        (r : SearchResult), r ∈ searchGoogleBooks name resp →
      r.year ≠ "Unknown" ∧ verifyMagazineIdentity name r.title = true ∧
        ∃ y, 2000 ≤ y ∧ y ≤ 2025 ∧ r.year = toString y) ∧
    searchArchiveOrg "Widget"
        (Except.ok ⟨some ⟨some [⟨"id1", "Widget", none, none⟩]⟩⟩) =
      [⟨"archive.org", "Widget", "Unknown", "https://archive.org/details/id1", ""⟩] ∧
    searchDigitalLibraries "Widget"
        [Except.ok [⟨"Widget", some "http://x/a", "d", "Widget d"⟩]] =
      [⟨"HathiTrust", "Widget", "Unknown", "http://x/a", "d"⟩] ∧
    searchGeneralWeb "Widget"
        [Except.ok [⟨"Widget", some "http://x", "plain", ""⟩], Except.ok []] =
      [⟨"Google", "Widget", "Unknown", "http://x", "plain"⟩] := by
  refine ⟨?_, by decide, by decide, by decide⟩
  intro name resp r h
  obtain ⟨-, hy, hv, hex⟩ := searchGoogleBooks_mem name resp r h
  exact ⟨hy, hv, hex⟩

/-- C7 witness: the main conjunct applied to a concrete emitted record. -/
theorem googleBooks_hard_rejects_unknown_year_witness :
    ("2015" : String) ≠ "Unknown" ∧
    verifyMagazineIdentity "Widget" "Widget" = true ∧
    ∃ y, 2000 ≤ y ∧ y ≤ 2025 ∧ ("2015" : String) = toString y := by
  have h := (googleBooks_hard_rejects_unknown_year).1 "Widget" gResp
    ⟨"google_books", "Widget", "2015", "http://g/x", ""⟩ (by decide)
  exact ⟨h.1, h.2.1, h.2.2⟩

/-- C8 counterexample: the Widget-Monthly scenario's single output record
carries source label `"archive.org"` — the code's label for catalog A —
not the `"archive-catalog"` stated by the claim. -/
theorem archiveOrg_scenario_source_label :
    (searchArchiveOrg "Widget Monthly"
        (Except.ok ⟨some ⟨some [⟨"wm12", "Widget Monthly", some "2012", none⟩,
          ⟨"ut", "Unrelated Thing", some "2012", none⟩]⟩⟩)).length = 1 ∧
    (searchArchiveOrg "Widget Monthly"
        (Except.ok ⟨some ⟨some [⟨"wm12", "Widget Monthly", some "2012", none⟩,
          ⟨"ut", "Unrelated Thing", some "2012", none⟩]⟩⟩)).countP
      (fun r => r.source == "archive-catalog") = 0 := by
  exact ⟨by decide, by decide⟩

/-- C8 (amended): on the two-doc response the catalog-A fetcher emits
exactly one record — the verified Widget Monthly doc — with the code's
source label `"archive.org"`, url ending in `"wm12"`, and year
`"2012"`. -/
theorem archiveOrg_widget_scenario :
    searchArchiveOrg "Widget Monthly"
        (Except.ok ⟨some ⟨some [⟨"wm12", "Widget Monthly", some "2012", none⟩,
          ⟨"ut", "Unrelated Thing", some "2012", none⟩]⟩⟩) =
      [⟨"archive.org", "Widget Monthly", "2012",
        "https://archive.org/details/wm12", ""⟩] ∧
    endsWithL "wm12".data "https://archive.org/details/wm12".data = true := by
  exact ⟨by decide, by decide⟩

/-- C9 counterexample: when the first subreddit's request throws, its
pacing delay is skipped (the delay sits inside the `try` block), so the
trace is not of the form "each request immediately followed by a delay"
that the claim's "regardless of whether that query succeeded or failed"
requires. -/
theorem pacing_delay_skipped_on_failure :
    searchRedditEvents "Widget"
        [Except.error "net", Except.ok ⟨none⟩, Except.ok ⟨none⟩,
          Except.ok ⟨none⟩] =
      [FetchEvent.request "magazines", FetchEvent.request "archival",
        FetchEvent.delay 2000, FetchEvent.request "vintageculture",
        FetchEvent.delay 2000, FetchEvent.request "OldSchoolCool",
        FetchEvent.delay 2000] ∧
    pacedEvents 2000 (searchRedditEvents "Widget"
        [Except.error "net", Except.ok ⟨none⟩, Except.ok ⟨none⟩,
          Except.ok ⟨none⟩]) = false := by
  exact ⟨by decide, by decide⟩

/-- C9 (amended): in the social, digital-library and general-web fetchers
the inner iteration is strictly sequential — the trace's requests are
exactly the fixed unit list, in order — and the fixed pacing delay
(2000 ms, 2000 ms, 3000 ms respectively) is executed after each unit's
query only when that query completes without throwing: a trace has a delay
per unit exactly when every unit succeeded, and the number of delays
always equals the number of successful units. -/
theorem sequential_pacing_after_success (name : String)
    (rresps : List (Except String RedditResponse))
    (lresps wresps : List (Except String (List ScrapedElem))) :
    (requestsOf (searchRedditEvents name rresps) =
        (subreddits.zip rresps).map (fun p => p.1) ∧
      delayCount (searchRedditEvents name rresps) =
        (subreddits.zip rresps).countP (fun p => p.2.isOk) ∧
      ((∀ r ∈ rresps, r.isOk = true) →
        pacedEvents 2000 (searchRedditEvents name rresps) = true)) ∧
    (requestsOf (searchDigitalLibraryEvents name lresps) =
        (libraries.zip lresps).map (fun p => p.1.name) ∧
      delayCount (searchDigitalLibraryEvents name lresps) =
        (libraries.zip lresps).countP (fun p => p.2.isOk) ∧
      ((∀ r ∈ lresps, r.isOk = true) →
        pacedEvents 2000 (searchDigitalLibraryEvents name lresps) = true)) ∧
    (requestsOf (searchGeneralWebEvents name wresps) =
        (searchEngines.zip wresps).map (fun p => p.1.name) ∧
      delayCount (searchGeneralWebEvents name wresps) =
        (searchEngines.zip wresps).countP (fun p => p.2.isOk) ∧
      ((∀ r ∈ wresps, r.isOk = true) →
        pacedEvents 3000 (searchGeneralWebEvents name wresps) = true)) := by
  refine ⟨⟨?_, ?_, ?_⟩, ⟨?_, ?_, ?_⟩, ⟨?_, ?_, ?_⟩⟩
  · exact fetchLoop_requests (fun s => s) (redditUnit name) 2000 _
  · exact fetchLoop_delayCount (fun s => s) (redditUnit name) 2000 _
  · intro h
    exact fetchLoop_paced _ _ _ _ (fun p hp => h p.2 (List.of_mem_zip hp).2)
  · exact fetchLoop_requests (fun lib => lib.name) (dlUnit name) 2000 _
  · exact fetchLoop_delayCount (fun lib => lib.name) (dlUnit name) 2000 _
  · intro h
    exact fetchLoop_paced _ _ _ _ (fun p hp => h p.2 (List.of_mem_zip hp).2)
  · exact fetchLoop_requests (fun engine => engine.name) (webUnit name) 3000 _
  · exact fetchLoop_delayCount (fun engine => engine.name) (webUnit name) 3000 _
  · intro h
    exact fetchLoop_paced _ _ _ _ (fun p hp => h p.2 (List.of_mem_zip hp).2)

/-- C9 witness: an all-successful social-fetcher run is fully paced. -/
theorem sequential_pacing_after_success_witness :
    pacedEvents 2000 (searchRedditEvents "Widget"
      [Except.ok ⟨none⟩, Except.ok ⟨none⟩, Except.ok ⟨none⟩,
        Except.ok ⟨none⟩]) = true :=
  (sequential_pacing_after_success "Widget"
      [Except.ok ⟨none⟩, Except.ok ⟨none⟩, Except.ok ⟨none⟩, Except.ok ⟨none⟩]
      [] []).1.2.2 (by decide)

/-- C10: when the target name normalises to the empty string (it is
non-empty but every character is neither a word character nor whitespace),
identity verification accepts every non-empty candidate title, because
every cleaned candidate contains the empty substring. -/
theorem verify_accepts_all_when_target_cleans_empty (name : String)
    (_hne : name ≠ "")
    (h : ∀ c ∈ name.data, isWordChar c = false ∧ isSpaceChar c = false) :
    ∀ title : String, title ≠ "" → verifyMagazineIdentity name title = true := by
  intro title ht
  unfold verifyMagazineIdentity
  rw [if_neg ht, cleanStr_eq_nil name h]
  simp [hasSubstring_nil_right]

/-- C10 witness: the all-punctuation target accepts an unrelated title. -/
theorem verify_accepts_all_when_target_cleans_empty_witness :
    verifyMagazineIdentity "!?!" "Unrelated Journal" = true :=
  verify_accepts_all_when_target_cleans_empty "!?!" (by decide) (by decide)
    "Unrelated Journal" (by decide)
